import Mathlib

/-!
Verification of the TinyPedal telemetry estimation core
(`src/tinypedal/module/module_fuel.py`, `src/tinypedal/module/module_sectors.py`).

Python floats are embedded as exact rationals (`ℚ`); fallible Python code
(division, list indexing, `float()` parsing) is embedded in `Except PyExc`.
External collaborator modules that are not part of the repository sources
(`validator`, `formatter`, `calculation`, the telemetry api) are modelled
from the specification where noted.
-/

/-- Exceptions raised by the embedded Python operations. -/
inductive PyExc where
  | zeroDivisionError
  | valueError
  | indexError
deriving DecidableEq, Repr

/-- Python `/` on floats: raises `ZeroDivisionError` when the divisor is zero. -/
def pyDiv (a b : ℚ) : Except PyExc ℚ :=
  if b = 0 then .error .zeroDivisionError else .ok (a / b)

/-- Python `math.modf(x)[0]`: the fractional part of `x`, carrying the sign of `x`. -/
def pyModfFrac (q : ℚ) : ℚ :=
  if 0 ≤ q then q - ⌊q⌋ else q - ⌈q⌉

/-- Python `round(x, 6)` (`module_fuel.py` keeps 6 decimals in curve samples).
Float round-half-even is modelled as exact half-up rounding on rationals;
no claim depends on the tie-breaking direction. -/
def round6 (q : ℚ) : ℚ :=
  ((⌊q * 1000000 + 1/2⌋ : ℤ) : ℚ) / 1000000

/-! ## Fuel projection functions (`module_fuel.py`, module level) -/

/-- Function `end_lap_consumption(used_last, delta_fuel, condition)`. -/
def end_lap_consumption (used_last delta_fuel : ℚ) (condition : Bool) : ℚ :=
  if condition then used_last + delta_fuel else used_last

/-- Function `end_stint_fuel(amount_curr, used_curr, used_est)`; the guard `if used_est:`
is Python float truthiness, i.e. `used_est ≠ 0`, so the division is safe. -/
def end_stint_fuel (amount_curr used_curr used_est : ℚ) : ℚ :=
  if used_est ≠ 0 then
    pyModfFrac ((amount_curr + used_curr) / used_est) * used_est
  else 0

/-- Function `end_stint_laps(amount_curr, used_est)`; guarded division. -/
def end_stint_laps (amount_curr used_est : ℚ) : ℚ :=
  if used_est ≠ 0 then amount_curr / used_est else 0

/-- Function `end_lap_empty_capacity(capacity, fuel_remain, fuel_consumption)`. -/
def end_lap_empty_capacity (capacity fuel_remain fuel_consumption : ℚ) : ℚ :=
  capacity - fuel_remain + fuel_consumption

/-- Function `end_stint_pit_counts(amount_need, capacity)`: the division
`amount_need / capacity` is not guarded in the source, so it can raise. -/
def end_stint_pit_counts (amount_need capacity : ℚ) : Except PyExc ℚ :=
  pyDiv amount_need capacity

/-- Function `end_lap_pit_counts(amount_need, est_empty, capacity)`: the first division
is guarded by `if est_empty else 1`, the second (`/ capacity`) is not. -/
def end_lap_pit_counts (amount_need est_empty capacity : ℚ) : Except PyExc ℚ := do
  let max_add_curr := min amount_need est_empty
  let est_pits_curr ← if est_empty ≠ 0 then pyDiv max_add_curr est_empty else .ok 1
  let est_pits_end ← pyDiv (amount_need - max_add_curr) capacity
  .ok (est_pits_curr + est_pits_end)

/-- Function `less_pit_stop_consumption(est_pits_late, capacity, amount_curr, laps_left)`;
the division is guarded by the truthiness check `if laps_left:`. -/
def less_pit_stop_consumption (est_pits_late capacity amount_curr laps_left : ℚ) : ℚ :=
  if laps_left ≠ 0 then
    ((((⌈est_pits_late⌉ : ℤ) : ℚ) - 1) * capacity + amount_curr) / laps_left
  else 0

/-! ## Sector estimator data model (`module_sectors.py`) -/

/-- Constant `MAGIC_NUM = 99999`, the sentinel for a sector value never updated by the sim. -/
def MAGIC_NUM : ℚ := 99999

/-- A Python 3-element list of floats, as used for sector-time triples
(`prev_s`, `best_s_tb`, `best_s_pb`, `delta_s_tb`, `delta_s_pb`);
field `sk` is index `[k]`. -/
structure Sect3 where
  s0 : ℚ
  s1 : ℚ
  s2 : ℚ
deriving DecidableEq, Repr

/-- Index access `[k]` on a sector triple. -/
def Sect3.get (v : Sect3) : Fin 3 → ℚ
  | ⟨0, _⟩ => v.s0
  | ⟨1, _⟩ => v.s1
  | ⟨2, _⟩ => v.s2

/-- The sentinel triple `[MAGIC_NUM, MAGIC_NUM, MAGIC_NUM]`. -/
def magicSect3 : Sect3 := ⟨MAGIC_NUM, MAGIC_NUM, MAGIC_NUM⟩

/-- Modelled from the spec: `validator.sector_time` (the `validator` module is
not under `src/`); "A valid sector time predicate: value > 0 and < the unset
sentinel (99999)". -/
def val_sector_time (t : ℚ) : Bool :=
  decide (0 < t) && decide (t < MAGIC_NUM)

/-- Modelled from the spec: `validator.sector_time` applied to a 3-element list
(all entries must be individually valid). -/
def val_sector_time3 (v : Sect3) : Bool :=
  val_sector_time v.s0 && val_sector_time v.s1 && val_sector_time v.s2

/-- The per-tick mutable state of `Realtime.__update_data` in `module_sectors.py`
(the block-scoped locals re-initialized on session start). -/
structure SectorState where
  last_sector_idx : ℤ
  laptime_best : ℚ
  best_s_tb : Sect3
  best_s_pb : Sect3
  delta_s_tb : Sect3
  delta_s_pb : Sect3
  prev_s : Sect3
  no_delta_s : Bool
deriving DecidableEq, Repr

/-- One tick's worth of telemetry reads in the sector loop. -/
structure SectorInput where
  sector_idx : ℤ
  laptime_valid : ℚ
  curr_sector1 : ℚ
  curr_sector2 : ℚ
  last_sector2 : ℚ
deriving DecidableEq, Repr

/-- One poll tick of the sector state machine: lines 92-161 of
`module_sectors.py` (`# Update previous & best sector time`). -/
def sectorTick (s : SectorState) (i : SectorInput) : SectorState :=
  if s.last_sector_idx ≠ i.sector_idx then
    if i.sector_idx = 0 ∧ 0 < i.laptime_valid ∧ 0 < i.last_sector2 then
      -- While vehicle in S1, update S3 data
      let p2 := i.laptime_valid - i.last_sector2
      let prev' : Sect3 := { s.prev_s with s2 := p2 }
      let dpb2 := if val_sector_time s.best_s_pb.s2 then
          p2 - s.best_s_pb.s2 + s.delta_s_pb.s1 else s.delta_s_pb.s2
      let dtb2 := if val_sector_time s.best_s_tb.s2 then
          p2 - s.best_s_tb.s2 else s.delta_s_tb.s2
      let nods := !val_sector_time s.best_s_tb.s2
      let tb' := if p2 < s.best_s_tb.s2 then { s.best_s_tb with s2 := p2 } else s.best_s_tb
      let lbpb :=
        if i.laptime_valid < s.laptime_best ∧ val_sector_time3 prev' then
          (i.laptime_valid, prev')
        else (s.laptime_best, s.best_s_pb)
      { last_sector_idx := i.sector_idx, laptime_best := lbpb.1,
        best_s_tb := tb', best_s_pb := lbpb.2,
        delta_s_tb := { s.delta_s_tb with s2 := dtb2 },
        delta_s_pb := { s.delta_s_pb with s2 := dpb2 },
        prev_s := prev', no_delta_s := nods }
    else if i.sector_idx = 1 ∧ 0 < i.curr_sector1 then
      -- While vehicle in S2, update S1 data
      let p0 := i.curr_sector1
      let prev' : Sect3 := { s.prev_s with s0 := p0 }
      let dpb0 := if val_sector_time s.best_s_pb.s0 then
          p0 - s.best_s_pb.s0 else s.delta_s_pb.s0
      let dtb0 := if val_sector_time s.best_s_tb.s0 then
          p0 - s.best_s_tb.s0 else s.delta_s_tb.s0
      let nods := !val_sector_time s.best_s_tb.s0
      let tb' := if p0 < s.best_s_tb.s0 then { s.best_s_tb with s0 := p0 } else s.best_s_tb
      { last_sector_idx := i.sector_idx, laptime_best := s.laptime_best,
        best_s_tb := tb', best_s_pb := s.best_s_pb,
        delta_s_tb := { s.delta_s_tb with s0 := dtb0 },
        delta_s_pb := { s.delta_s_pb with s0 := dpb0 },
        prev_s := prev', no_delta_s := nods }
    else if i.sector_idx = 2 ∧ 0 < i.curr_sector2 ∧ 0 < i.curr_sector1 then
      -- While vehicle in S3, update S2 data
      let p1 := i.curr_sector2 - i.curr_sector1
      let prev' : Sect3 := { s.prev_s with s1 := p1 }
      let dpb1 := if val_sector_time s.best_s_pb.s1 then
          p1 - s.best_s_pb.s1 + s.delta_s_pb.s0 else s.delta_s_pb.s1
      let dtb1 := if val_sector_time s.best_s_tb.s1 then
          p1 - s.best_s_tb.s1 else s.delta_s_tb.s1
      let nods := !val_sector_time s.best_s_tb.s1
      let tb' := if p1 < s.best_s_tb.s1 then { s.best_s_tb with s1 := p1 } else s.best_s_tb
      { last_sector_idx := i.sector_idx, laptime_best := s.laptime_best,
        best_s_tb := tb', best_s_pb := s.best_s_pb,
        delta_s_tb := { s.delta_s_tb with s1 := dtb1 },
        delta_s_pb := { s.delta_s_pb with s1 := dpb1 },
        prev_s := prev', no_delta_s := nods }
    else s
  else s

/-! ## Sector persistence (`module_sectors.py`, lines 184-240)

The stored record is a pipe-delimited string split by `formatter.pipe_split`
(an external module, not under `src/`).  A Python string field is abstracted
as the pair of (a) its text — only ever used for field 0, the combo name —
and (b) the result of Python `float()` on it: `some q` when it parses,
`none` when `float()` raises `ValueError`.  A raw split record is therefore
embedded as `String × List (Option ℚ)`: the head field's text and the float
parses of the remaining fields. -/

/-- Result of `Realtime.parse_save_string`: either the reset marker
`["None"]` (from the `except IndexError` arm) or the filled 7-slot list. -/
inductive ParsedSectorData where
  | reset
  | filled (combo : String) (sessType sessElapsed sessLaps laptime_best : ℚ)
      (best_s_tb best_s_pb : Sect3)
deriving DecidableEq, Repr

/-- Python `float()` applied to a stored field, under the field abstraction
above: yields the parsed value or raises `ValueError`. -/
def pyFloat (o : Option ℚ) : Except PyExc ℚ :=
  match o with
  | some q => .ok q
  | none => .error .valueError

/-- Python `tuple(map(float, string_list[1:]))`: left-to-right, failing at the first
unparseable field. -/
def mapPyFloat : List (Option ℚ) → Except PyExc (List ℚ)
  | [] => .ok []
  | o :: tl => do
      let q ← pyFloat o
      let rest ← mapPyFloat tl
      .ok (q :: rest)

/-- Method `Realtime.convert_value(string_list)`: keeps field 0 as a string and maps
Python `float` over the rest; `float()` raises `ValueError` on an
unparseable field, and this call sits outside the `try` block of
`parse_save_string`. -/
def convert_value (head : String) (rest : List (Option ℚ)) :
    Except PyExc (String × List ℚ) := do
  let vals ← mapPyFloat rest
  .ok (head, vals)

/-- Method `Realtime.parse_save_string(save_data)`: fills the 7-slot list from the
converted fields, falling back to `["None"]` on `IndexError` (fewer than 11
fields).  A `ValueError` from `convert_value` propagates. -/
def parse_save_string (head : String) (rest : List (Option ℚ)) :
    Except PyExc ParsedSectorData := do
  let data ← convert_value head rest
  match data.2 with
  | d1 :: d2 :: d3 :: d4 :: d5 :: d6 :: d7 :: d8 :: d9 :: d10 :: _ =>
      .ok (.filled data.1 d1 d2 d3 d4 ⟨d5, d6, d7⟩ ⟨d8, d9, d10⟩)
  | _ => .ok .reset

/-- Method `Realtime.load_sector_data(combo_id, session_id)`: accepts the stored
record only when the combo matches, the session type matches exactly and the
stored elapsed time / total laps are `<=` the current session's; otherwise it
resets to the sentinels.  When the parse produced the `["None"]` marker and
`combo_id` is the literal string `"None"`, the chained comparison evaluates
`saved_data[1]` on a 1-element list and raises `IndexError`. -/
def load_sector_data (combo_id : String) (session_id : ℚ × ℚ × ℚ)
    (head : String) (rest : List (Option ℚ)) :
    Except PyExc (ℚ × Sect3 × Sect3) := do
  let saved_data ← parse_save_string head rest
  match saved_data with
  | .reset =>
      if combo_id = "None" then .error .indexError
      else .ok (MAGIC_NUM, magicSect3, magicSect3)
  | .filled combo sessType sessElapsed sessLaps laptime_best best_s_tb best_s_pb =>
      if combo_id = combo ∧ sessType = session_id.1 ∧
          sessElapsed ≤ session_id.2.1 ∧ sessLaps ≤ session_id.2.2 then
        .ok (laptime_best, best_s_tb, best_s_pb)
      else
        .ok (MAGIC_NUM, magicSect3, magicSect3)

/-- One record written by `Realtime.save_sector_data` (the pipe-joined string
stored into the module config; `formatter.pipe_join` is external, so the
record is kept structured). -/
structure SavedSector where
  combo_id : String
  session_id : ℚ × ℚ × ℚ
  laptime_best : ℚ
  best_s_tb : Sect3
  best_s_pb : Sect3
deriving DecidableEq, Repr

/-- Method `Realtime.save_sector_data`: writes only valid data.  `session_id` is a
3-tuple read from the external api; a non-empty Python tuple is always
truthy, so the gate `if session_id and val.sector_time(best_s_pb)` reduces
to the personal-best validity check. -/
def save_sector_data (combo_id : String) (session_id : ℚ × ℚ × ℚ)
    (best_s_pb : Sect3) (laptime_best : ℚ) (best_s_tb : Sect3) : List SavedSector :=
  if val_sector_time3 best_s_pb then
    [⟨combo_id, session_id, laptime_best, best_s_tb, best_s_pb⟩]
  else []

/-! ## Sector worker loop (`module_sectors.py`, `Realtime.__update_data`)

The loop `while not self.event.wait(update_interval): ...` is embedded as a
transition system: each wake of the timer is one tick, and the tick input
records whether `stop()` has set the event before this wake (`eventSet`),
the `api.state` flag, and the telemetry read this tick.  When the event is
set, `event.wait` returns `True` and the loop exits; the code after the loop
only unregisters the module and sets `stopped` — it performs no save.
Interval bookkeeping (`update_interval`) has no effect on the data flow and
is not modelled. -/

/-- Fields published to `minfo.sectors` (lines 163-170). -/
structure SectorOutput where
  sectorIndex : ℤ
  deltaSectorBestPB : Sect3
  deltaSectorBestTB : Sect3
  sectorBestTB : Sect3
  sectorBestPB : Sect3
  sectorPrev : Sect3
  noDeltaSector : Bool
deriving DecidableEq, Repr

/-- The publish step (lines 163-170). -/
def publishSectors (st : SectorState) : SectorOutput :=
  { sectorIndex := min (max st.last_sector_idx 0) 2,
    deltaSectorBestPB := st.delta_s_pb,
    deltaSectorBestTB := st.delta_s_tb,
    sectorBestTB := st.best_s_tb,
    sectorBestPB := st.best_s_pb,
    sectorPrev := st.prev_s,
    noDeltaSector := st.no_delta_s }

/-- Whole-loop state of the sector worker: the `reset` flag, the
block-scoped session variables, the published output, the records written
to persistence so far, and the `stopped` flag set after the loop exits. -/
structure SectorLoopState where
  reset : Bool
  stopped : Bool
  combo_id : String
  session_id : ℚ × ℚ × ℚ
  st : SectorState
  out : SectorOutput
  saved : List SavedSector
deriving DecidableEq, Repr

/-- Input consumed at one wake of the sector worker loop. -/
structure SectorLoopTick where
  eventSet : Bool
  apiState : Bool
  combo : String
  session : ℚ × ℚ × ℚ
  telemetry : SectorInput
deriving DecidableEq, Repr

/-- Fresh sector state after the reset block (lines 71-83), with bests
taken from `load_sector_data`. -/
def sectorResetState (loaded : ℚ × Sect3 × Sect3) : SectorState :=
  { last_sector_idx := -1, laptime_best := loaded.1,
    best_s_tb := loaded.2.1, best_s_pb := loaded.2.2,
    delta_s_tb := ⟨0, 0, 0⟩, delta_s_pb := ⟨0, 0, 0⟩,
    prev_s := magicSect3, no_delta_s := true }

/-- One wake of the sector worker loop.  `stored` is the record currently
held in the module config (`self.mcfg["sector_info"]`), already split. -/
def sectorLoopStep (stored : String × List (Option ℚ))
    (s : SectorLoopState) (t : SectorLoopTick) : Except PyExc SectorLoopState :=
  if t.eventSet then
    -- `event.wait` returned `True`: the loop exits, the worker is marked
    -- stopped; no save happens on this path.
    .ok { s with stopped := true }
  else if t.apiState then do
    let (combo_id, session_id, st0) ←
      if !s.reset then do
        let loaded ← load_sector_data t.combo t.session stored.1 stored.2
        Except.ok (t.combo, t.session, sectorResetState loaded)
      else
        Except.ok (s.combo_id, s.session_id, s.st)
    let st1 := sectorTick st0 t.telemetry
    .ok { s with reset := true, combo_id := combo_id, session_id := session_id,
                 st := st1, out := publishSectors st1 }
  else
    if s.reset then
      .ok { s with reset := false,
                   saved := s.saved ++ save_sector_data s.combo_id s.session_id
                     s.st.best_s_pb s.st.laptime_best s.st.best_s_tb }
    else .ok s

/-- A run of the sector worker loop over a list of wakes; once stopped the
thread is gone, so remaining ticks are ignored. -/
def sectorRun (stored : String × List (Option ℚ)) :
    SectorLoopState → List SectorLoopTick → Except PyExc SectorLoopState
  | s, [] => .ok s
  | s, t :: ts =>
      if s.stopped then .ok s
      else do
        let s' ← sectorLoopStep stored s t
        sectorRun stored s' ts

/-- Loop state before the first wake (thread just started). -/
def sectorLoopInit : SectorLoopState :=
  { reset := false, stopped := false, combo_id := "", session_id := (0, 0, 0),
    st := sectorResetState (MAGIC_NUM, magicSect3, magicSect3),
    out := publishSectors (sectorResetState (MAGIC_NUM, magicSect3, magicSect3)),
    saved := [] }

/-! ## Fuel estimator (`module_fuel.py`, `Realtime.__update_data`) -/

/-- One sample of the distance-indexed fuel usage curve.  The Python list
mixes 2-tuples `(distance, used)` with the 3-tuple closing point
`(distance, used, laptime)`; the optional third slot captures that. -/
structure DeltaSample where
  pos : ℚ
  used : ℚ
  laptime : Option ℚ := none
deriving DecidableEq, Repr

/-- Constant `DELTA_ZERO = 0.0, 0.0`, the seed sample of a curve. -/
def DELTA_ZERO : DeltaSample := ⟨0, 0, none⟩

/-- Modelled from the spec: the shared numeric routines of the external
`calculation` module (not under `src/`).  `distance` sums 3D displacement
between consecutive global-position samples; `delta_telemetry` compares
current usage against the interpolated reference-curve usage at the given
position.  The fuel tick is parameterized over them: no claim proved here
depends on their values. -/
structure CalcApi where
  distance : (ℚ × ℚ × ℚ) → (ℚ × ℚ × ℚ) → ℚ
  delta_telemetry : ℚ → ℚ → List DeltaSample → Bool → ℚ

/-- A trivial instantiation of the external routines, used only to evaluate
the tick at concrete inputs. -/
def trivialCalc : CalcApi := ⟨fun _ _ => 0, fun _ _ _ _ => 0⟩

/-- The per-tick mutable state of `Realtime.__update_data` in
`module_fuel.py` (the block-scoped locals re-initialized on session start,
restricted to those read on a later tick). -/
structure FuelState where
  recording : Bool
  validating : Bool
  delayed_save : Bool
  pit_lap : Bool
  delta_list_last : List DeltaSample
  delta_list_curr : List DeltaSample
  delta_list_temp : List DeltaSample
  delta_fuel : ℚ
  amount_start : ℚ
  amount_last : ℚ
  amount_need : ℚ
  used_curr : ℚ
  used_last : ℚ
  used_last_raw : ℚ
  laptime_last : ℚ
  last_lap_stime : ℚ
  laps_left : ℚ
  pos_last : ℚ
  pos_estimate : ℚ
  gps_last : ℚ × ℚ × ℚ
deriving DecidableEq, Repr

/-- One tick's worth of telemetry reads in the fuel loop (lines 111-126,
before the local adjustments `max(..., 0)` / `max(..., 1)`). -/
structure FuelInput where
  lap_stime : ℚ
  laptime_curr_raw : ℚ
  laptime_valid : ℚ
  time_left : ℚ
  amount_curr : ℚ
  tank_capacity_raw : ℚ
  in_garage : Bool
  in_pits : Bool
  pos_curr : ℚ
  gps_curr : ℚ × ℚ × ℚ
  lap_number : ℚ
  lap_into : ℚ
  laps_max : ℚ
  lap_type : Bool
deriving DecidableEq, Repr

/-- Fields published to `minfo.fuel` (lines 230-244). -/
structure FuelOutput where
  tankCapacity : ℚ
  amountFuelStart : ℚ
  amountFuelCurrent : ℚ
  amountFuelNeeded : ℚ
  amountFuelBeforePitstop : ℚ
  lastLapFuelConsumption : ℚ
  estimatedFuelConsumption : ℚ
  estimatedLaps : ℚ
  estimatedMinutes : ℚ
  estimatedEmptyCapacity : ℚ
  estimatedNumPitStopsEnd : ℚ
  estimatedNumPitStopsEarly : ℚ
  deltaFuelConsumption : ℚ
  oneLessPitFuelConsumption : ℚ
deriving DecidableEq, Repr

/-- Observations of which branches fired during a tick: the lap start/finish
detection branch (line 138) and its inner curve-staging branch (line 139). -/
structure FuelEvents where
  lapBoundary : Bool
  staged : Bool
deriving DecidableEq, Repr

/-- The realtime fuel consumption block (lines 128-134): returns the new
`(amount_last, amount_start, used_curr)`. -/
def fuelLevelUpdate (amount_last amount_start used_curr amount_curr : ℚ) :
    ℚ × ℚ × ℚ :=
  if amount_last < amount_curr then (amount_curr, amount_curr, used_curr)
  else if amount_curr < amount_last then
    (amount_curr, amount_start, used_curr + (amount_last - amount_curr))
  else (amount_last, amount_start, used_curr)

/-- The chained comparison `lap_stime > last_lap_stime != -1` on line 138:
`lap_stime > last_lap_stime and last_lap_stime != -1`. -/
def lapBoundaryDetected (last_lap_stime lap_stime : ℚ) : Bool :=
  decide (last_lap_stime < lap_stime) && decide (last_lap_stime ≠ -1)

/-- One poll tick of the fuel loop while a session is active: the body of
`while not self.event.wait(...)` under `if api.state:` with `reset` already
true (lines 111-244 of `module_fuel.py`).  Statement order follows the
source; the two unguarded divisions inside `end_stint_pit_counts` /
`end_lap_pit_counts` make the tick fallible. -/
def fuelTick (capi : CalcApi) (s : FuelState) (i : FuelInput) :
    Except PyExc (FuelState × FuelOutput × FuelEvents) :=
  -- Read telemetry
  let laptime_curr := max i.laptime_curr_raw 0
  let capacity := max i.tank_capacity_raw 1
  -- `pit_lap = bool(pit_lap + in_pits)`: integer addition of two bools is
  -- nonzero iff either is true
  let pit_lap0 := s.pit_lap || i.in_pits
  -- Realtime fuel consumption
  let flu := fuelLevelUpdate s.amount_last s.amount_start s.used_curr i.amount_curr
  let amount_last1 := flu.1
  let amount_start1 := flu.2.1
  let used_curr1 := flu.2.2
  -- Lap start & finish detection
  let boundary := lapBoundaryDetected s.last_lap_stime i.lap_stime
  let staged := boundary && decide (1 < s.delta_list_curr.length) && !pit_lap0
  let delta_list_temp1 := if staged then
      s.delta_list_curr ++ [⟨round6 (s.pos_last + 10), round6 used_curr1,
        some (round6 (i.lap_stime - s.last_lap_stime))⟩]
    else s.delta_list_temp
  let validating1 := if staged then true else s.validating
  let delta_list_curr1 := if boundary then [DELTA_ZERO] else s.delta_list_curr
  let pos_last1 := if boundary then i.pos_curr else s.pos_last
  let used_last_raw1 := if boundary then used_curr1 else s.used_last_raw
  let used_curr2 := if boundary then 0 else used_curr1
  let recording1 := if boundary then decide (laptime_curr < 1) else s.recording
  let pit_lap1 := if boundary then false else pit_lap0
  let last_lap_stime1 := i.lap_stime
  -- 1 sec position distance check after new lap begins
  let posReset := decide (0 < laptime_curr) && decide (laptime_curr < 1) &&
    decide (300 < i.pos_curr)
  let pos_curr1 := if posReset then 0 else i.pos_curr
  let pos_last2 := if posReset then 0 else pos_last1
  -- Update if position value is different & positive
  let posChanged := decide (0 ≤ pos_curr1) && decide (pos_curr1 ≠ pos_last2)
  let delta_list_curr2 :=
    if posChanged && recording1 && decide (pos_last2 < pos_curr1) then
      delta_list_curr1 ++ [⟨round6 pos_curr1, round6 used_curr2, none⟩]
    else delta_list_curr1
  let pos_estimate1 := if posChanged then pos_curr1 else s.pos_estimate
  let pos_last3 := if posChanged then pos_curr1 else pos_last2
  -- Validating 1s after passing finish line
  let inWindow := decide ((0.2 : ℚ) < laptime_curr) && decide (laptime_curr ≤ 3)
  let confirm := validating1 && inWindow && decide (0 < i.laptime_valid)
  let expire := validating1 && !inWindow && decide ((3 : ℚ) < laptime_curr) &&
    decide (laptime_curr < 5)
  let used_last1 := if confirm then used_last_raw1 else s.used_last
  let laptime_last1 := if confirm then i.laptime_valid else s.laptime_last
  let delta_list_last1 := if confirm then delta_list_temp1 else s.delta_list_last
  let delta_list_temp2 := if confirm then [DELTA_ZERO] else delta_list_temp1
  let validating2 := if confirm || expire then false else validating1
  let delayed_save1 := if confirm then true else s.delayed_save
  -- Calc delta
  let gpsChanged := decide (s.gps_last ≠ i.gps_curr)
  let pos_estimate2 := if gpsChanged then
      pos_estimate1 + capi.distance s.gps_last i.gps_curr else pos_estimate1
  let gps_last1 := if gpsChanged then i.gps_curr else s.gps_last
  let delta_fuel1 := if gpsChanged then
      capi.delta_telemetry pos_estimate2 used_curr2 delta_list_last1
        (decide ((0.3 : ℚ) < laptime_curr) && !i.in_garage)
    else s.delta_fuel
  -- Exclude first lap & pit in & out lap: `0 == pit_lap < lap_number`
  let used_est := end_lap_consumption used_last1 delta_fuel1
    (!pit_lap1 && decide (0 < i.lap_number))
  -- Total refuel = laps left * last consumption - remaining fuel
  let llan :=
    if i.lap_type then
      let full_laps_left := i.laps_max - i.lap_number
      let laps_left := full_laps_left - i.lap_into
      (laps_left, laps_left * used_est - i.amount_curr)
    else if 0 < laptime_last1 then
      let rel_lap_into := pyModfFrac (laptime_curr / laptime_last1) * laptime_last1
      let full_laps_left : ℚ :=
        ((⌈(i.time_left + rel_lap_into) / laptime_last1⌉ : ℤ) : ℚ)
      let laps_left := if (0.2 : ℚ) < laptime_curr then
          max (full_laps_left - i.lap_into) 0 else s.laps_left
      (laps_left, full_laps_left * used_est - used_curr2 - i.amount_curr)
    else (s.laps_left, s.amount_need)
  let laps_left1 := llan.1
  let amount_need1 := llan.2
  let amount_left := end_stint_fuel i.amount_curr used_curr2 used_est
  let est_runlaps := end_stint_laps i.amount_curr used_est
  let est_runmins := est_runlaps * laptime_last1 / 60
  let est_empty := end_lap_empty_capacity capacity (i.amount_curr + used_curr2)
    (used_last1 + delta_fuel1)
  do
  let est_pits_late ← end_stint_pit_counts amount_need1 (capacity - amount_left)
  let est_pits_early ← end_lap_pit_counts amount_need1 est_empty (capacity - amount_left)
  let used_est_less := less_pit_stop_consumption est_pits_late capacity
    i.amount_curr laps_left1
  .ok
    ({ recording := recording1, validating := validating2,
       delayed_save := delayed_save1, pit_lap := pit_lap1,
       delta_list_last := delta_list_last1, delta_list_curr := delta_list_curr2,
       delta_list_temp := delta_list_temp2, delta_fuel := delta_fuel1,
       amount_start := amount_start1, amount_last := amount_last1,
       amount_need := amount_need1, used_curr := used_curr2,
       used_last := used_last1, used_last_raw := used_last_raw1,
       laptime_last := laptime_last1, last_lap_stime := last_lap_stime1,
       laps_left := laps_left1, pos_last := pos_last3,
       pos_estimate := pos_estimate2, gps_last := gps_last1 },
     { tankCapacity := capacity, amountFuelStart := amount_start1,
       amountFuelCurrent := i.amount_curr, amountFuelNeeded := amount_need1,
       amountFuelBeforePitstop := amount_left,
       lastLapFuelConsumption := used_last_raw1,
       estimatedFuelConsumption := used_last1 + delta_fuel1,
       estimatedLaps := est_runlaps, estimatedMinutes := est_runmins,
       estimatedEmptyCapacity := est_empty,
       estimatedNumPitStopsEnd := est_pits_late,
       estimatedNumPitStopsEarly := est_pits_early,
       deltaFuelConsumption := delta_fuel1,
       oneLessPitFuelConsumption := used_est_less },
     { lapBoundary := boundary, staged := staged })

/-- A run of consecutive active fuel ticks; an uncaught exception aborts the
run (the worker thread dies). -/
def fuelRun (capi : CalcApi) : FuelState → List FuelInput → Except PyExc FuelState
  | s, [] => .ok s
  | s, i :: is => do
      let r ← fuelTick capi s i
      fuelRun capi r.1 is

/-- The fold of the consumption block over a list of successive fuel
readings (proof device for the within-a-lap analysis of C7). -/
def fuelLevelRun (st : ℚ × ℚ × ℚ) (readings : List ℚ) : ℚ × ℚ × ℚ :=
  readings.foldl (fun t c => fuelLevelUpdate t.1 t.2.1 t.2.2 c) st

/-! ## Fuel worker loop (`module_fuel.py`, `Realtime.__update_data`)

Like the sector loop, the `while not self.event.wait(update_interval)` loop
is embedded as a transition system: each wake is one tick carrying whether
`stop()` has set the event, the `api.state` flag, and the telemetry read.
When the event is set the loop exits and the code after it (lines 253-255)
only unregisters the module and sets `stopped` — it performs no save; the
delayed curve save runs only in the idle branch (lines 246-251).  Interval
bookkeeping is not modelled.  The filesystem read `Realtime.load_deltafuel`
(lines 257-277) is abstracted as a parameter supplying its per-combo result
`(curve, last_used, last_laptime)`; its internals (csv parsing, the
corrective re-save of a malformed curve) are needed by no claim. -/

/-- Method `Realtime.save_deltafuel(combo, listname)` (lines 279-285):
writes the curve as one combo-keyed record, and only when the curve has
more than the single seed point (`if len(listname) > 1`). -/
def save_deltafuel (combo : String) (listname : List DeltaSample) :
    List (String × List DeltaSample) :=
  if 1 < listname.length then [(combo, listname)] else []

/-- Fresh fuel state after the session-reset block (lines 76-109), with the
curve, last-lap usage and laptime taken from `load_deltafuel`. -/
def fuelResetState (loaded : List DeltaSample × ℚ × ℚ) : FuelState :=
  { recording := false, validating := false, delayed_save := false,
    pit_lap := false, delta_list_last := loaded.1,
    delta_list_curr := [DELTA_ZERO], delta_list_temp := [DELTA_ZERO],
    delta_fuel := 0, amount_start := 0, amount_last := 0, amount_need := 0,
    used_curr := 0, used_last := loaded.2.1, used_last_raw := loaded.2.1,
    laptime_last := loaded.2.2, last_lap_stime := -1, laps_left := 0,
    pos_last := 0, pos_estimate := 0, gps_last := (0, 0, 0) }

/-- Whole-loop state of the fuel worker: the `reset` flag, the block-scoped
session variables, the last published output, the records written to
persistence so far, and the `stopped` flag set after the loop exits. -/
structure FuelLoopState where
  reset : Bool
  stopped : Bool
  combo_id : String
  st : FuelState
  out : FuelOutput
  saved : List (String × List DeltaSample)
deriving DecidableEq, Repr

/-- Input consumed at one wake of the fuel worker loop. -/
structure FuelLoopTick where
  eventSet : Bool
  apiState : Bool
  combo : String
  telemetry : FuelInput
deriving DecidableEq, Repr

/-- One wake of the fuel worker loop.  `load` abstracts the per-combo
result of `load_deltafuel`. -/
def fuelLoopStep (capi : CalcApi) (load : String → List DeltaSample × ℚ × ℚ)
    (s : FuelLoopState) (t : FuelLoopTick) : Except PyExc FuelLoopState :=
  if t.eventSet then
    -- `event.wait` returned `True`: the loop exits, the worker is marked
    -- stopped; no save happens on this path.
    .ok { s with stopped := true }
  else if t.apiState then
    let cs :=
      if !s.reset then (t.combo, fuelResetState (load t.combo))
      else (s.combo_id, s.st)
    match fuelTick capi cs.2 t.telemetry with
    | .error e => .error e
    | .ok r =>
        .ok { s with reset := true, combo_id := cs.1, st := r.1, out := r.2.1 }
  else
    if s.reset then
      -- idle transition: flush the pending curve when a delayed save is
      -- pending (`delayed_save` itself is NOT cleared here, only at the
      -- next session reset)
      .ok { s with
            reset := false,
            saved := s.saved ++ (if s.st.delayed_save then
              save_deltafuel s.combo_id s.st.delta_list_last else []) }
    else .ok s

/-- A run of the fuel worker loop over a list of wakes; once stopped the
thread is gone, so remaining ticks are ignored. -/
def fuelLoopRun (capi : CalcApi) (load : String → List DeltaSample × ℚ × ℚ) :
    FuelLoopState → List FuelLoopTick → Except PyExc FuelLoopState
  | s, [] => .ok s
  | s, t :: ts =>
      if s.stopped then .ok s
      else do
        let s' ← fuelLoopStep capi load s t
        fuelLoopRun capi load s' ts

/-- A fuel state as produced by the session-reset block (lines 76-109) with
a previously loaded single-point curve. -/
def zFuelState : FuelState :=
  { recording := false, validating := false, delayed_save := false,
    pit_lap := false, delta_list_last := [⟨99999, 0, some 0⟩],
    delta_list_curr := [DELTA_ZERO], delta_list_temp := [DELTA_ZERO],
    delta_fuel := 0, amount_start := 0, amount_last := 0, amount_need := 0,
    used_curr := 0, used_last := 0, used_last_raw := 0, laptime_last := 0,
    last_lap_stime := -1, laps_left := 0, pos_last := 0, pos_estimate := 0,
    gps_last := (0, 0, 0) }

/-- The all-zero telemetry input. -/
def zFuelInput : FuelInput :=
  { lap_stime := 0, laptime_curr_raw := 0, laptime_valid := 0, time_left := 0,
    amount_curr := 0, tank_capacity_raw := 0, in_garage := false,
    in_pits := false, pos_curr := 0, gps_curr := (0, 0, 0), lap_number := 0,
    lap_into := 0, laps_max := 0, lap_type := false }

/-- The result of the zero tick `fuelTick trivialCalc zFuelState zFuelInput`
(used to instantiate the fuel theorems at a concrete input). -/
def zFuelResult : FuelState × FuelOutput × FuelEvents :=
  ({ zFuelState with last_lap_stime := 0 },
   { tankCapacity := 1, amountFuelStart := 0, amountFuelCurrent := 0,
     amountFuelNeeded := 0, amountFuelBeforePitstop := 0,
     lastLapFuelConsumption := 0, estimatedFuelConsumption := 0,
     estimatedLaps := 0, estimatedMinutes := 0, estimatedEmptyCapacity := 1,
     estimatedNumPitStopsEnd := 0, estimatedNumPitStopsEarly := 0,
     deltaFuelConsumption := 0, oneLessPitFuelConsumption := 0 },
   { lapBoundary := false, staged := false })

/-- State for the C2 counterexample: mid-lap, 5 units already used this lap,
last seen lap start time 100. -/
def c2FuelState : FuelState :=
  { zFuelState with last_lap_stime := 100, used_curr := 5 }

/-- Input for the C2 counterexample: the polled lap start time DECREASED
from 100 to 50. -/
def c2FuelInput : FuelInput := { zFuelInput with lap_stime := 50 }

/-- Input for the C7 counterexample: a single (trivially non-decreasing)
reading of -1 against the session-reset baseline `amount_last = 0`. -/
def c7FuelInput : FuelInput := { zFuelInput with amount_curr := -1 }

/-- A session-reset fuel state that has already observed the vehicle in the
pits (`pit_lap` latched true). -/
def pitFuelState : FuelState := { zFuelState with pit_lap := true }

/-- The result of `fuelTick trivialCalc pitFuelState zFuelInput`. -/
def pitFuelResult : FuelState × FuelOutput × FuelEvents :=
  ({ pitFuelState with last_lap_stime := 0 }, zFuelResult.2.1, zFuelResult.2.2)

/-! ## Concrete states and inputs used by the claim instances -/

/-- The outcome of `load_sector_data` as a function of the numeric parses
of the stored fields (proof device for the C8 analysis). -/
def loadOutcome (combo h : String) (sid : ℚ × ℚ × ℚ) (vals : List ℚ) :
    Except PyExc (ℚ × Sect3 × Sect3) :=
  match vals with
  | d1 :: d2 :: d3 :: d4 :: d5 :: d6 :: d7 :: d8 :: d9 :: d10 :: _ =>
      if combo = h ∧ d1 = sid.1 ∧ d2 ≤ sid.2.1 ∧ d3 ≤ sid.2.2 then
        .ok (d4, ⟨d5, d6, d7⟩, ⟨d8, d9, d10⟩)
      else .ok (MAGIC_NUM, magicSect3, magicSect3)
  | _ =>
      if combo = "None" then .error .indexError
      else .ok (MAGIC_NUM, magicSect3, magicSect3)

/-- Concrete state for the C1 counterexample: all three theoretical-best
slots hold the valid time 50. -/
def c1State : SectorState :=
  { last_sector_idx := 1, laptime_best := MAGIC_NUM, best_s_tb := ⟨50, 50, 50⟩,
    best_s_pb := magicSect3, delta_s_tb := ⟨0, 0, 0⟩, delta_s_pb := ⟨0, 0, 0⟩,
    prev_s := magicSect3, no_delta_s := true }

/-- Concrete input for the C1 counterexample: sector 3 completes with
`last_laptime = 50` and `last_sector2 = 60`, so the computed sector-3 time
is `50 - 60 = -10 ≤ 0`. -/
def c1Input : SectorInput :=
  { sector_idx := 0, laptime_valid := 50, curr_sector1 := 0,
    curr_sector2 := 0, last_sector2 := 60 }

/-- Concrete state for the C6 witness: sectors 1 and 2 already observed as
30 and 31, best laptime still the sentinel. -/
def c6State : SectorState :=
  { last_sector_idx := 2, laptime_best := MAGIC_NUM, best_s_tb := ⟨30, 31, 99999⟩,
    best_s_pb := magicSect3, delta_s_tb := ⟨0, 0, 0⟩, delta_s_pb := ⟨0, 0, 0⟩,
    prev_s := ⟨30, 31, 99999⟩, no_delta_s := true }

/-- Concrete input for the C6 witness: lap completes in 92 with
`last_sector2 = 61`, giving the valid splits `(30, 31, 31)`. -/
def c6Input : SectorInput :=
  { sector_idx := 0, laptime_valid := 92, curr_sector1 := 0,
    curr_sector2 := 0, last_sector2 := 61 }

/-- Stored record for the C5 trace: empty config value (cold start). -/
def c5Stored : String × List (Option ℚ) := ("", [])

/-- C5 trace, tick 1: session active, sector 1 completes in 30. -/
def c5T1 : SectorLoopTick :=
  { eventSet := false, apiState := true, combo := "COMBO", session := (1, 100, 10),
    telemetry :=
      { sector_idx := 1, laptime_valid := 0, curr_sector1 := 30,
        curr_sector2 := 0, last_sector2 := 0 } }

/-- C5 trace, tick 2: sector 2 completes (61 − 30 = 31). -/
def c5T2 : SectorLoopTick :=
  { c5T1 with
    telemetry :=
      { sector_idx := 2, laptime_valid := 0, curr_sector1 := 30,
        curr_sector2 := 61, last_sector2 := 0 } }

/-- C5 trace, tick 3: lap completes in 92, sector 3 = 92 − 61 = 31; the
personal-best array becomes the valid triple (30, 31, 31). -/
def c5T3 : SectorLoopTick :=
  { c5T1 with
    telemetry :=
      { sector_idx := 0, laptime_valid := 92, curr_sector1 := 0,
        curr_sector2 := 0, last_sector2 := 61 } }

/-- C5 trace, tick 4: `stop()` has set the event; the wait returns `True`. -/
def c5T4 : SectorLoopTick := { c5T1 with eventSet := true }

/-- Armed loop state used by the C5 witness's idle-transition conjunct. -/
def c5Armed : SectorLoopState := { sectorLoopInit with reset := true }

/-- Idle tick (session gone) used by the C5 witness. -/
def c5TIdle : SectorLoopTick := { c5T1 with apiState := false }

/-- Loader used by the C5 fuel instances: every combo id maps to the
default single-point curve with zero usage and laptime. -/
def zFuelLoad : String → List DeltaSample × ℚ × ℚ :=
  fun _ => ([⟨99999, 0, some 0⟩], 0, 0)

/-- A validated two-point curve pending its delayed save. -/
def c5PendingCurve : List DeltaSample := [DELTA_ZERO, ⟨100, 3, some 90⟩]

/-- Armed fuel loop state with a delayed curve save pending
(`delayed_save = true` after a confirmed lap). -/
def c5FuelPending : FuelLoopState :=
  { reset := true, stopped := false, combo_id := "COMBO",
    st :=
      { zFuelState with
        delayed_save := true,
        delta_list_last := c5PendingCurve },
    out := zFuelResult.2.1, saved := [] }

/-- Fuel loop tick with the stop event set while the session is active. -/
def c5FuelStopTick : FuelLoopTick :=
  { eventSet := true, apiState := true, combo := "COMBO",
    telemetry := zFuelInput }

/-- Fuel loop tick for the active-to-idle transition. -/
def c5FuelIdleTick : FuelLoopTick :=
  { c5FuelStopTick with eventSet := false, apiState := false }

/-! ## Helper lemmas -/

/-- Destructuring a successful `Except` bind. -/
theorem exceptBind_eq_ok {α β : Type} {a : Except PyExc α}
    {f : α → Except PyExc β} {r : β} :
    (a >>= f) = .ok r ↔ ∃ x, a = .ok x ∧ f x = .ok r := by
  cases a <;> simp [Bind.bind, Except.bind]

/-- Division `pyDiv` succeeds exactly on nonzero divisors. -/
theorem pyDiv_eq_ok {a b : ℚ} (hb : b ≠ 0) : pyDiv a b = .ok (a / b) := by
  simp [pyDiv, hb]

/-- Mapping `pyFloat` over a list with no failing field succeeds, preserving
length. -/
theorem mapPyFloat_ok (rest : List (Option ℚ)) (hnum : ∀ o ∈ rest, o ≠ none) :
    ∃ vals : List ℚ, mapPyFloat rest = .ok vals ∧ vals.length = rest.length := by
  induction rest with
  | nil => exact ⟨[], rfl, rfl⟩
  | cons o tl ih =>
      obtain ⟨vals, hv, hlen⟩ := ih (fun x hx => hnum x (List.mem_cons_of_mem o hx))
      obtain ⟨q, hq⟩ := Option.ne_none_iff_exists.mp (hnum o (List.mem_cons_self o tl))
      refine ⟨q :: vals, ?_, by simp [hlen]⟩
      simp [mapPyFloat, ← hq, pyFloat, hv, Bind.bind, Except.bind]

/-! ## C4: division-by-zero behaviour of the fuel projections -/

/-- C4 counterexample: the claim says `end_stint_pit_counts` and
`end_lap_pit_counts` are total and that a zero remaining-tank-capacity
divisor is short-circuited; in fact both divide by their `capacity`
argument unguarded and raise `ZeroDivisionError` when it is 0. -/
theorem C4_pit_counts_raise_cex :
    end_stint_pit_counts 5 0 = .error .zeroDivisionError ∧
    end_lap_pit_counts 5 3 0 = .error .zeroDivisionError := by
  constructor
  · norm_num [end_stint_pit_counts, pyDiv]
  · norm_num [end_lap_pit_counts, pyDiv, Bind.bind, Except.bind]

/-- C4 (amended): consumption-zero and empty-capacity-zero divisors are
guarded (`end_stint_laps` and `end_stint_fuel` short-circuit to 0, the
current-stint term of `end_lap_pit_counts` is capped to 1), and both
pit-count functions succeed whenever their `capacity` argument is nonzero;
but that argument is divided by unguarded, so neither pit-count function is
total. -/
theorem C4_pit_counts_amended (a u n e c : ℚ) (hc : c ≠ 0) :
    end_stint_laps a 0 = 0 ∧
    (u ≠ 0 → end_stint_laps a u = a / u) ∧
    end_stint_fuel a u 0 = 0 ∧
    (∃ q, end_stint_pit_counts n c = .ok q) ∧
    (∃ q, end_lap_pit_counts n e c = .ok q) ∧
    end_lap_pit_counts n 0 c = .ok (1 + (n - min n 0) / c) := by
  refine ⟨by simp [end_stint_laps], fun hu => by simp [end_stint_laps, hu],
    by simp [end_stint_fuel], ⟨n / c, by simp [end_stint_pit_counts, pyDiv, hc]⟩, ?_, ?_⟩
  · by_cases he : e = 0
    · subst he
      exact ⟨1 + (n - min n 0) / c,
        by simp [end_lap_pit_counts, pyDiv, hc, Bind.bind, Except.bind]⟩
    · exact ⟨min n e / e + (n - min n e) / c,
        by simp [end_lap_pit_counts, pyDiv, hc, he, Bind.bind, Except.bind]⟩
  · simp [end_lap_pit_counts, pyDiv, hc, Bind.bind, Except.bind]

/-- Witness for C4 (amended) at `a = 5`, `u = 2`, `n = 7`, `e = 3`, `c = 4`. -/
theorem C4_pit_counts_amended_witness :
    end_stint_laps 5 0 = 0 ∧
    ((2 : ℚ) ≠ 0 → end_stint_laps 5 2 = 5 / 2) ∧
    end_stint_fuel 5 2 0 = 0 ∧
    (∃ q, end_stint_pit_counts 7 4 = .ok q) ∧
    (∃ q, end_lap_pit_counts 7 3 4 = .ok q) ∧
    end_lap_pit_counts 7 0 4 = .ok (1 + (7 - min 7 0) / 4) :=
  C4_pit_counts_amended 5 2 7 3 4 (by norm_num)

/-! ## C3: session-continuity check on load -/

/-- C3 counterexample: a stored record whose session type (0) is strictly
less than the current session's (1), everything else compatible and the
combo matching.  The claim's acceptance condition (componentwise `<=`)
holds, yet the code rejects the record because it compares the session type
with `==`, not `<=`. -/
theorem C3_load_cex :
    ((0 : ℚ) ≤ 1 ∧ (500 : ℚ) ≤ 600 ∧ (10 : ℚ) ≤ 12) ∧
    load_sector_data ("X") (1, 600, 12) ("X")
        [some 0, some 500, some 10, some 77, some 1, some 2, some 3,
         some 4, some 5, some 6]
      = .ok (MAGIC_NUM, magicSect3, magicSect3) := by
  refine ⟨by norm_num, ?_⟩
  norm_num [load_sector_data, parse_save_string, convert_value, mapPyFloat,
    pyFloat, Bind.bind, Except.bind]

/-- C3 (amended): `load_sector_data` accepts a well-formed stored record if
and only if the combo id matches exactly, the stored session type equals
the current one, and the stored elapsed time and total laps are
less-than-or-equal to the current session's; otherwise it yields the
sentinel defaults.  (The claim's two concrete scenarios, which keep the
session type equal, behave as stated.) -/
theorem C3_load_amended (combo h : String) (sid : ℚ × ℚ × ℚ)
    (t e l lt b1 b2 b3 p1 p2 p3 : ℚ) :
    (combo = h ∧ t = sid.1 ∧ e ≤ sid.2.1 ∧ l ≤ sid.2.2 →
      load_sector_data combo sid h
          [some t, some e, some l, some lt, some b1, some b2, some b3,
           some p1, some p2, some p3]
        = .ok (lt, ⟨b1, b2, b3⟩, ⟨p1, p2, p3⟩)) ∧
    (¬(combo = h ∧ t = sid.1 ∧ e ≤ sid.2.1 ∧ l ≤ sid.2.2) →
      load_sector_data combo sid h
          [some t, some e, some l, some lt, some b1, some b2, some b3,
           some p1, some p2, some p3]
        = .ok (MAGIC_NUM, magicSect3, magicSect3)) := by
  constructor
  · intro hacc
    simp [load_sector_data, parse_save_string, convert_value, mapPyFloat,
      pyFloat, Bind.bind, Except.bind, hacc.1, hacc.2.1, hacc.2.2.1, hacc.2.2.2]
  · intro hrej
    simp only [load_sector_data, parse_save_string, convert_value, mapPyFloat,
      pyFloat, Bind.bind, Except.bind]
    rw [if_neg hrej]

/-- Witness for C3 (amended): the claim's own accepted scenario, stored
identity `(1, 500, 10)` against current `(1, 600, 12)`. -/
theorem C3_load_amended_witness :
    load_sector_data ("X") (1, 600, 12) ("X")
        [some 1, some 500, some 10, some 77, some 1, some 2, some 3,
         some 4, some 5, some 6]
      = .ok (77, ⟨1, 2, 3⟩, ⟨4, 5, 6⟩) :=
  (C3_load_amended ("X") ("X") (1, 600, 12) 1 500 10 77 1 2 3 4 5 6).1
    (by norm_num)

/-! ## C8: malformed stored sector records -/

/-- C8 counterexample: a stored field that fails numeric parsing raises
`ValueError` out of `parse_save_string` / `load_sector_data` — the `try`
in `parse_save_string` catches only `IndexError`, and `convert_value` runs
before it. -/
theorem C8_malformed_raises_cex :
    load_sector_data ("X") (0, 0, 0) ("C") [none] = .error .valueError := by
  norm_num [load_sector_data, parse_save_string, convert_value, mapPyFloat,
    pyFloat, Bind.bind, Except.bind]

/-- Characterization of `load_sector_data` once the numeric parses of the
stored fields are known. -/
theorem load_sector_data_with_vals (combo h : String) (sid : ℚ × ℚ × ℚ)
    (rest : List (Option ℚ)) (vals : List ℚ)
    (hv : mapPyFloat rest = .ok vals) :
    load_sector_data combo sid h rest = loadOutcome combo h sid vals := by
  rcases vals with _ | ⟨d1, _ | ⟨d2, _ | ⟨d3, _ | ⟨d4, _ | ⟨d5, _ | ⟨d6,
    _ | ⟨d7, _ | ⟨d8, _ | ⟨d9, _ | ⟨d10, tl⟩⟩⟩⟩⟩⟩⟩⟩⟩⟩
  all_goals unfold load_sector_data parse_save_string convert_value loadOutcome
  all_goals rw [hv]
  all_goals rfl

/-- C8 (amended): a stored record with fewer pipe-delimited fields than
required is treated as "no data" without raising — `parse_save_string`
turns the `IndexError` into the `["None"]` marker and `load_sector_data`
yields the sentinel defaults (provided the current combo id is not the
literal string `"None"`, which would make the chained comparison index
into the 1-element marker list).  A field that fails numeric parsing,
however, raises `ValueError`; only under the assumption that every stored
field parses does loading never raise. -/
theorem C8_malformed_amended (h combo : String) (sid : ℚ × ℚ × ℚ)
    (rest : List (Option ℚ)) (hnum : ∀ o ∈ rest, o ≠ none)
    (hc : combo ≠ "None") :
    (∃ r, load_sector_data combo sid h rest = .ok r) ∧
    (rest.length < 10 →
      load_sector_data combo sid h rest = .ok (MAGIC_NUM, magicSect3, magicSect3)) := by
  obtain ⟨vals, hv, hlen⟩ := mapPyFloat_ok rest hnum
  rw [load_sector_data_with_vals combo h sid rest vals hv]
  unfold loadOutcome
  constructor
  · rcases vals with _ | ⟨d1, _ | ⟨d2, _ | ⟨d3, _ | ⟨d4, _ | ⟨d5, _ | ⟨d6,
      _ | ⟨d7, _ | ⟨d8, _ | ⟨d9, _ | ⟨d10, tl⟩⟩⟩⟩⟩⟩⟩⟩⟩⟩ <;>
      simp only [hc, if_false] <;> (try split_ifs) <;> exact ⟨_, rfl⟩
  · intro hshort
    rw [← hlen] at hshort
    rcases vals with _ | ⟨d1, _ | ⟨d2, _ | ⟨d3, _ | ⟨d4, _ | ⟨d5, _ | ⟨d6,
      _ | ⟨d7, _ | ⟨d8, _ | ⟨d9, _ | ⟨d10, tl⟩⟩⟩⟩⟩⟩⟩⟩⟩⟩ <;>
      first
        | (simp only [List.length_cons] at hshort; omega)
        | simp [hc]

/-- Witness for C8 (amended): a 2-field record, both fields numeric, combo
`"X"`: loading yields the sentinel defaults without raising. -/
theorem C8_malformed_amended_witness :
    (∃ r, load_sector_data ("X") (0, 0, 0) ("C") [some 1, some 2] = .ok r) ∧
    ([some (1 : ℚ), some 2].length < 10 →
      load_sector_data ("X") (0, 0, 0) ("C") [some 1, some 2]
        = .ok (MAGIC_NUM, magicSect3, magicSect3)) :=
  C8_malformed_amended ("C") ("X") (0, 0, 0) [some 1, some 2]
    (by simp) (by decide)

/-! ## C1: best-slot update invariant of the sector tick -/

/-- C1 counterexample: the claim's own example input
(`last_laptime - last_sector2 ≤ 0`) replaces the valid theoretical-best
sector-3 time 50 with the invalid time −10 — the tick has no validity
guard on the theoretical-best update, only the `<` comparison. -/
theorem C1_invalid_overwrites_valid_cex :
    val_sector_time c1State.best_s_tb.s2 = true ∧
    (sectorTick c1State c1Input).best_s_tb.s2 = -10 ∧
    val_sector_time ((sectorTick c1State c1Input).best_s_tb.s2) = false := by
  norm_num [sectorTick, c1State, c1Input, val_sector_time, val_sector_time3,
    MAGIC_NUM, magicSect3]

/-- The personal-best array is either untouched by a tick or replaced by an
all-valid triple (the replacement is guarded by `val.sector_time(prev_s)`). -/
theorem sectorTick_pb_cases (s : SectorState) (i : SectorInput) :
    (sectorTick s i).best_s_pb = s.best_s_pb ∨
      val_sector_time3 (sectorTick s i).best_s_pb = true := by
  unfold sectorTick
  split_ifs <;> simp_all <;> split_ifs <;> simp_all

/-- Each theoretical-best slot is non-increasing under a tick (the slot is
only ever assigned under a `<` comparison). -/
theorem sectorTick_tb_mono (s : SectorState) (i : SectorInput) (k : Fin 3) :
    (sectorTick s i).best_s_tb.get k ≤ s.best_s_tb.get k := by
  fin_cases k <;>
    (unfold sectorTick
     split_ifs <;> simp [Sect3.get] <;> split_ifs <;> simp <;> linarith)

/-- A theoretical-best slot that is below the sentinel stays below it. -/
theorem sectorTick_tb_below_magic (s : SectorState) (i : SectorInput) (k : Fin 3)
    (hv : val_sector_time (s.best_s_tb.get k) = true) :
    (sectorTick s i).best_s_tb.get k < MAGIC_NUM := by
  have h2 : s.best_s_tb.get k < MAGIC_NUM := by
    have hv2 := hv
    simp only [val_sector_time, Bool.and_eq_true, decide_eq_true_eq] at hv2
    exact hv2.2
  fin_cases k <;> simp only [Sect3.get] at h2 ⊢ <;>
    (unfold sectorTick
     split_ifs <;> (try simp only [Sect3.get]) <;> (try split_ifs) <;>
       (try simp) <;> linarith)

/-- C1 (amended): on every tick, the personal-best array is either unchanged
or replaced by an all-valid triple, and each theoretical-best slot never
increases and never reaches the sentinel while valid; but (per the
counterexample) a computed sector time that is zero or negative CAN replace
a valid theoretical best — the tick guards personal bests with the validity
predicate, not theoretical bests. -/
theorem C1_best_slots_amended (s : SectorState) (i : SectorInput) (k : Fin 3) :
    ((sectorTick s i).best_s_pb = s.best_s_pb ∨
      val_sector_time3 (sectorTick s i).best_s_pb = true) ∧
    (sectorTick s i).best_s_tb.get k ≤ s.best_s_tb.get k ∧
    (val_sector_time (s.best_s_tb.get k) = true →
      (sectorTick s i).best_s_tb.get k < MAGIC_NUM) :=
  ⟨sectorTick_pb_cases s i, sectorTick_tb_mono s i k,
    fun hv => sectorTick_tb_below_magic s i k hv⟩

/-- Witness for C1 (amended) at the concrete counterexample state/input and
slot 2 (whose stored best, 50, is valid, discharging the implication). -/
theorem C1_best_slots_amended_witness :
    ((sectorTick c1State c1Input).best_s_pb = c1State.best_s_pb ∨
      val_sector_time3 (sectorTick c1State c1Input).best_s_pb = true) ∧
    (sectorTick c1State c1Input).best_s_tb.get 2 ≤ c1State.best_s_tb.get 2 ∧
    (sectorTick c1State c1Input).best_s_tb.get 2 < MAGIC_NUM :=
  ⟨(C1_best_slots_amended c1State c1Input 2).1,
   (C1_best_slots_amended c1State c1Input 2).2.1,
   (C1_best_slots_amended c1State c1Input 2).2.2
     (by norm_num [c1State, Sect3.get, val_sector_time, MAGIC_NUM])⟩

/-! ## C6: atomic personal-best replacement -/

/-- C6 (confirmed): on a tick where sector 3 completes (sector index changed
to 0 with positive last laptime and last sector-2 split — the tick on which
"the just-completed lap" is observed), the lap time is strictly below the
stored best laptime, and the three observed splits (the updated `prev_s`)
are all individually valid, the personal-best array becomes exactly those
three splits and the best laptime becomes that lap's time; on every other
tick both are unchanged — never a mix of old and new. -/
theorem C6_personal_best_atomic (s : SectorState) (i : SectorInput) :
    (((s.last_sector_idx ≠ i.sector_idx ∧ i.sector_idx = 0 ∧
        0 < i.laptime_valid ∧ 0 < i.last_sector2) ∧
      i.laptime_valid < s.laptime_best ∧
      val_sector_time3 ⟨s.prev_s.s0, s.prev_s.s1,
        i.laptime_valid - i.last_sector2⟩ = true) →
      (sectorTick s i).best_s_pb =
          ⟨s.prev_s.s0, s.prev_s.s1, i.laptime_valid - i.last_sector2⟩ ∧
        (sectorTick s i).laptime_best = i.laptime_valid) ∧
    (¬((s.last_sector_idx ≠ i.sector_idx ∧ i.sector_idx = 0 ∧
        0 < i.laptime_valid ∧ 0 < i.last_sector2) ∧
      i.laptime_valid < s.laptime_best ∧
      val_sector_time3 ⟨s.prev_s.s0, s.prev_s.s1,
        i.laptime_valid - i.last_sector2⟩ = true) →
      (sectorTick s i).best_s_pb = s.best_s_pb ∧
        (sectorTick s i).laptime_best = s.laptime_best) := by
  constructor
  · rintro ⟨⟨hg1, hg2, hg3, hg4⟩, hc1, hc2⟩
    unfold sectorTick
    rw [if_pos hg1, if_pos ⟨hg2, hg3, hg4⟩]
    simp [hc1, hc2]
  · intro hn
    by_cases hg : s.last_sector_idx ≠ i.sector_idx
    · by_cases hb0 : i.sector_idx = 0 ∧ 0 < i.laptime_valid ∧ 0 < i.last_sector2
      · simp only [sectorTick, if_pos hg, if_pos hb0]
        split_ifs <;>
          first
            | exact ⟨rfl, rfl⟩
            | trivial
            | exact absurd ⟨⟨hg, hb0.1, hb0.2.1, hb0.2.2⟩, by assumption⟩ hn
      · simp only [sectorTick, if_pos hg, if_neg hb0]
        split_ifs <;> exact ⟨rfl, rfl⟩
    · simp only [sectorTick, if_neg hg]
      first | exact ⟨rfl, rfl⟩ | trivial

/-- Witness for C6 at a concrete faster-lap tick: the personal bests become
exactly the three observed splits and the best laptime becomes 92. -/
theorem C6_personal_best_atomic_witness :
    (sectorTick c6State c6Input).best_s_pb =
        ⟨c6State.prev_s.s0, c6State.prev_s.s1,
          c6Input.laptime_valid - c6Input.last_sector2⟩ ∧
      (sectorTick c6State c6Input).laptime_best = c6Input.laptime_valid :=
  (C6_personal_best_atomic c6State c6Input).1
    (by norm_num [c6State, c6Input, val_sector_time3, val_sector_time, MAGIC_NUM])

/-! ## C5: stop-path flush behaviour of the worker loop -/

/-- C5 counterexample: `stop()` fires while the session is still active and
valid personal-best data is pending (the save gate `val.sector_time(best_s_pb)`
holds).  The loop exits and the worker is marked stopped, but nothing is
flushed to persistence (`saved = []`) — the save runs only on the
active-to-idle transition, not on the stop path. -/
theorem C5_stop_skips_flush_cex :
    (sectorRun c5Stored sectorLoopInit [c5T1, c5T2, c5T3, c5T4]).map
        (fun s => (s.stopped, s.saved, val_sector_time3 s.st.best_s_pb))
      = .ok (true, [], true) := by
  have hcombo : ("COMBO" = "None") = False := eq_false (by decide)
  norm_num [hcombo, sectorRun, sectorLoopStep, sectorLoopInit, c5Stored,
    c5T1, c5T2, c5T3, c5T4, sectorTick, sectorResetState, publishSectors,
    save_sector_data, load_sector_data, parse_save_string, convert_value,
    mapPyFloat, pyFloat, val_sector_time3, val_sector_time, MAGIC_NUM,
    magicSect3, Bind.bind, Except.bind, Except.map]

/-- C5 (amended): in both estimators, a wake with the stop event set exits
the loop immediately and marks the worker stopped, performing no save; the
flush to persistence (the sector record save, and the fuel curve save when
a delayed save is pending) happens only on the active-to-idle transition
(`api.state` false while the session state is armed).  Data pending when
`stop()` fires during an active session is not flushed. -/
theorem C5_stop_flush_amended :
    (∀ (stored : String × List (Option ℚ)) (s : SectorLoopState)
        (t : SectorLoopTick), t.eventSet = true →
      sectorLoopStep stored s t = .ok { s with stopped := true }) ∧
    (∀ (stored : String × List (Option ℚ)) (s : SectorLoopState)
        (t : SectorLoopTick),
      t.eventSet = false → t.apiState = false → s.reset = true →
      sectorLoopStep stored s t =
        .ok { s with
              reset := false,
              saved := s.saved ++ save_sector_data s.combo_id s.session_id
                  s.st.best_s_pb s.st.laptime_best s.st.best_s_tb }) ∧
    (∀ (capi : CalcApi) (load : String → List DeltaSample × ℚ × ℚ)
        (s : FuelLoopState) (t : FuelLoopTick), t.eventSet = true →
      fuelLoopStep capi load s t = .ok { s with stopped := true }) ∧
    (∀ (capi : CalcApi) (load : String → List DeltaSample × ℚ × ℚ)
        (s : FuelLoopState) (t : FuelLoopTick),
      t.eventSet = false → t.apiState = false → s.reset = true →
      fuelLoopStep capi load s t =
        .ok { s with
              reset := false,
              saved := s.saved ++ (if s.st.delayed_save then
                save_deltafuel s.combo_id s.st.delta_list_last else []) }) := by
  refine ⟨?_, ?_, ?_, ?_⟩
  · intro stored s t he
    simp [sectorLoopStep, he]
  · intro stored s t he ha hr
    simp [sectorLoopStep, he, ha, hr]
  · intro capi load s t he
    simp [fuelLoopStep, he]
  · intro capi load s t he ha hr
    unfold fuelLoopStep
    rw [if_neg (by simp [he]), if_neg (by simp [ha]), if_pos hr]

/-- Witness for C5 (amended): the sector stop tick on the initial state and
the sector idle transition on an armed state; the fuel stop tick on an
armed state with a pending delayed save (nothing flushed, worker stopped)
and the fuel idle transition on the same state (the pending two-point curve
is flushed). -/
theorem C5_stop_flush_amended_witness :
    sectorLoopStep c5Stored sectorLoopInit c5T4
        = .ok { sectorLoopInit with stopped := true } ∧
    sectorLoopStep c5Stored c5Armed c5TIdle =
      .ok { c5Armed with
            reset := false,
            saved := c5Armed.saved ++ save_sector_data c5Armed.combo_id
                c5Armed.session_id c5Armed.st.best_s_pb c5Armed.st.laptime_best
                c5Armed.st.best_s_tb } ∧
    fuelLoopStep trivialCalc zFuelLoad c5FuelPending c5FuelStopTick
        = .ok { c5FuelPending with stopped := true } ∧
    fuelLoopStep trivialCalc zFuelLoad c5FuelPending c5FuelIdleTick =
      .ok { c5FuelPending with
            reset := false,
            saved := c5FuelPending.saved ++ (if c5FuelPending.st.delayed_save then
              save_deltafuel c5FuelPending.combo_id
                c5FuelPending.st.delta_list_last else []) } :=
  ⟨C5_stop_flush_amended.1 c5Stored sectorLoopInit c5T4 rfl,
   C5_stop_flush_amended.2.1 c5Stored c5Armed c5TIdle rfl rfl rfl,
   C5_stop_flush_amended.2.2.1 trivialCalc zFuelLoad c5FuelPending
     c5FuelStopTick rfl,
   C5_stop_flush_amended.2.2.2 trivialCalc zFuelLoad c5FuelPending
     c5FuelIdleTick rfl rfl rfl⟩

/-- Field characterization of a successful fuel tick (shared by the fuel
claims below): the boundary/staging events, the accumulator effects of the
boundary branch, the consumption-block effects, and the published
capacity/empty-capacity values. -/
theorem fuelTick_ok_fields (capi : CalcApi) (s : FuelState) (i : FuelInput)
    (r : FuelState × FuelOutput × FuelEvents) (hr : fuelTick capi s i = .ok r) :
    r.2.2.lapBoundary = lapBoundaryDetected s.last_lap_stime i.lap_stime ∧
    r.2.2.staged = (lapBoundaryDetected s.last_lap_stime i.lap_stime &&
      decide (1 < s.delta_list_curr.length) && !(s.pit_lap || i.in_pits)) ∧
    r.1.last_lap_stime = i.lap_stime ∧
    r.1.pit_lap = (if lapBoundaryDetected s.last_lap_stime i.lap_stime then false
      else (s.pit_lap || i.in_pits)) ∧
    r.1.amount_last =
      (fuelLevelUpdate s.amount_last s.amount_start s.used_curr i.amount_curr).1 ∧
    r.1.amount_start =
      (fuelLevelUpdate s.amount_last s.amount_start s.used_curr i.amount_curr).2.1 ∧
    r.1.used_curr = (if lapBoundaryDetected s.last_lap_stime i.lap_stime then 0
      else (fuelLevelUpdate s.amount_last s.amount_start s.used_curr i.amount_curr).2.2) ∧
    r.2.1.tankCapacity = max i.tank_capacity_raw 1 ∧
    r.2.1.estimatedEmptyCapacity = end_lap_empty_capacity r.2.1.tankCapacity
      (i.amount_curr + r.1.used_curr) r.2.1.estimatedFuelConsumption := by
  unfold fuelTick at hr
  rw [exceptBind_eq_ok] at hr
  obtain ⟨x, hx, hr⟩ := hr
  rw [exceptBind_eq_ok] at hr
  obtain ⟨y, hy, hr⟩ := hr
  injection hr with hr
  subst hr
  exact ⟨rfl, rfl, rfl, rfl, rfl, rfl, rfl, rfl, rfl⟩

/-- The zero tick evaluates successfully to `zFuelResult` (used to
instantiate the fuel theorems at a concrete input). -/
theorem fuelTick_zero :
    fuelTick trivialCalc zFuelState zFuelInput = .ok zFuelResult := by
  norm_num [fuelTick, trivialCalc, zFuelState, zFuelInput, zFuelResult,
    fuelLevelUpdate, lapBoundaryDetected, DELTA_ZERO, round6, pyModfFrac,
    end_lap_consumption, end_stint_fuel, end_stint_laps,
    end_lap_empty_capacity, end_stint_pit_counts, end_lap_pit_counts,
    less_pit_stop_consumption, pyDiv, Bind.bind, Except.bind]

/-! ## C2: lap boundary detection -/

/-- C2 counterexample: the lap start time DECREASES from 100 to 50 (and the
previous value is not the −1 sentinel), which per the claim should fire the
lap-boundary branch and reset the per-lap accumulators; in fact the branch
does not fire (`lap_stime > last_lap_stime` is false) and `used_curr`
keeps its value 5. -/
theorem C2_decrease_no_fire_cex :
    (c2FuelInput.lap_stime < c2FuelState.last_lap_stime ∧
      c2FuelState.last_lap_stime ≠ -1) ∧
    (fuelTick trivialCalc c2FuelState c2FuelInput).map
        (fun r => (r.2.2.lapBoundary, r.1.used_curr)) = .ok (false, 5) := by
  constructor
  · constructor
    · norm_num [c2FuelInput, c2FuelState, zFuelState, zFuelInput]
    · norm_num [c2FuelState, zFuelState]
  · norm_num [fuelTick, trivialCalc, c2FuelState, c2FuelInput, zFuelState,
      zFuelInput, fuelLevelUpdate, lapBoundaryDetected, DELTA_ZERO, round6,
      pyModfFrac, end_lap_consumption, end_stint_fuel, end_stint_laps,
      end_lap_empty_capacity, end_stint_pit_counts, end_lap_pit_counts,
      less_pit_stop_consumption, pyDiv, Bind.bind, Except.bind, Except.map]

/-- C2 (amended): the lap-boundary branch fires if and only if the newly
read lap start time is GREATER than the previously seen value and the
previous value is not the −1 sentinel (the chained comparison
`lap_stime > last_lap_stime != -1`); when it fires, the per-lap
accumulators are reset and the pending curve is staged exactly when the
current curve has more than the seed point and the lap was not a pit lap. -/
theorem C2_lap_boundary_amended (capi : CalcApi) (s : FuelState)
    (i : FuelInput) (r : FuelState × FuelOutput × FuelEvents)
    (hr : fuelTick capi s i = .ok r) :
    (r.2.2.lapBoundary = true ↔
      (s.last_lap_stime < i.lap_stime ∧ s.last_lap_stime ≠ -1)) ∧
    (r.2.2.staged = true ↔
      (r.2.2.lapBoundary = true ∧ 1 < s.delta_list_curr.length ∧
        (s.pit_lap || i.in_pits) = false)) ∧
    (r.2.2.lapBoundary = true →
      r.1.used_curr = 0 ∧ r.1.pit_lap = false ∧ r.1.last_lap_stime = i.lap_stime) := by
  obtain ⟨hb, hst, hlt, hpl, -, -, huc, -, -⟩ := fuelTick_ok_fields capi s i r hr
  refine ⟨?_, ?_, ?_⟩
  · rw [hb]
    simp [lapBoundaryDetected]
  · rw [hst, hb]
    simp only [Bool.and_eq_true, Bool.not_eq_true', Bool.or_eq_false_iff,
      decide_eq_true_eq]
    tauto
  · intro hfire
    rw [hfire] at hb
    refine ⟨?_, ?_, hlt⟩
    · rw [huc, ← hb]
      simp
    · rw [hpl, ← hb]
      simp

/-- Witness for C2 (amended) at the concrete zero tick. -/
theorem C2_lap_boundary_amended_witness :
    (zFuelResult.2.2.lapBoundary = true ↔
      (zFuelState.last_lap_stime < zFuelInput.lap_stime ∧
        zFuelState.last_lap_stime ≠ -1)) ∧
    (zFuelResult.2.2.staged = true ↔
      (zFuelResult.2.2.lapBoundary = true ∧
        1 < zFuelState.delta_list_curr.length ∧
        (zFuelState.pit_lap || zFuelInput.in_pits) = false)) ∧
    (zFuelResult.2.2.lapBoundary = true →
      zFuelResult.1.used_curr = 0 ∧ zFuelResult.1.pit_lap = false ∧
        zFuelResult.1.last_lap_stime = zFuelInput.lap_stime) :=
  C2_lap_boundary_amended trivialCalc zFuelState zFuelInput zFuelResult fuelTick_zero

/-! ## C9: tank capacity clamping -/

/-- C9 (confirmed): on every successful tick the published `tankCapacity`
is `max(raw reading, 1)`, hence at least 1 — including for a reported raw
capacity of 0 or negative — and the published end-of-lap empty capacity is
computed from that same clamped value. -/
theorem C9_tank_capacity_clamped (capi : CalcApi) (s : FuelState)
    (i : FuelInput) (r : FuelState × FuelOutput × FuelEvents)
    (hr : fuelTick capi s i = .ok r) :
    r.2.1.tankCapacity = max i.tank_capacity_raw 1 ∧
    1 ≤ r.2.1.tankCapacity ∧
    r.2.1.estimatedEmptyCapacity = end_lap_empty_capacity r.2.1.tankCapacity
      (i.amount_curr + r.1.used_curr) r.2.1.estimatedFuelConsumption := by
  obtain ⟨-, -, -, -, -, -, -, hcap, hempty⟩ := fuelTick_ok_fields capi s i r hr
  exact ⟨hcap, by rw [hcap]; exact le_max_right _ _, hempty⟩

/-- Witness for C9 at the concrete zero tick (raw capacity 0 is published
as 1). -/
theorem C9_tank_capacity_clamped_witness :
    zFuelResult.2.1.tankCapacity = max zFuelInput.tank_capacity_raw 1 ∧
    1 ≤ zFuelResult.2.1.tankCapacity ∧
    zFuelResult.2.1.estimatedEmptyCapacity =
      end_lap_empty_capacity zFuelResult.2.1.tankCapacity
        (zFuelInput.amount_curr + zFuelResult.1.used_curr)
        zFuelResult.2.1.estimatedFuelConsumption :=
  C9_tank_capacity_clamped trivialCalc zFuelState zFuelInput zFuelResult fuelTick_zero

/-! ## C10: pit-lap latch -/

/-- The tick on the pit-latched state evaluates to `pitFuelResult`. -/
theorem fuelTick_pit :
    fuelTick trivialCalc pitFuelState zFuelInput = .ok pitFuelResult := by
  norm_num [fuelTick, trivialCalc, pitFuelState, zFuelState, zFuelInput,
    pitFuelResult, zFuelResult, fuelLevelUpdate, lapBoundaryDetected,
    DELTA_ZERO, round6, pyModfFrac, end_lap_consumption, end_stint_fuel,
    end_stint_laps, end_lap_empty_capacity, end_stint_pit_counts,
    end_lap_pit_counts, less_pit_stop_consumption, pyDiv, Bind.bind,
    Except.bind]

/-- C10 (confirmed): the pit-lap flag is sticky within a lap — once the
latched flag or the polled in-pits flag is true, the post-tick flag is true
unless the lap-boundary branch fired (the only reset point); a tick that
sees the flag never stages the pending curve; and over any run of ticks
whose lap start times never increase (no lap boundary), a true flag stays
true. -/
theorem C10_pit_lap_sticky (capi : CalcApi) :
    (∀ s i r, fuelTick capi s i = .ok r → (s.pit_lap || i.in_pits) = true →
        r.2.2.lapBoundary = false → r.1.pit_lap = true) ∧
    (∀ s i r, fuelTick capi s i = .ok r → (s.pit_lap || i.in_pits) = true →
        r.2.2.staged = false) ∧
    (∀ s inputs r, List.Chain' (fun a b => b ≤ a)
        (s.last_lap_stime :: inputs.map FuelInput.lap_stime) →
      fuelRun capi s inputs = .ok r → s.pit_lap = true → r.pit_lap = true) := by
  refine ⟨?_, ?_, ?_⟩
  · intro s i r hr hor hbf
    obtain ⟨hb, -, -, hpl, -, -, -, -, -⟩ := fuelTick_ok_fields capi s i r hr
    rw [hbf] at hb
    rw [hpl, ← hb]
    simp [hor]
  · intro s i r hr hor
    obtain ⟨-, hst, -, -, -, -, -, -, -⟩ := fuelTick_ok_fields capi s i r hr
    rw [hst, hor]
    simp
  · intro s inputs r hchain hrun hpit
    induction inputs generalizing s with
    | nil =>
        simp only [fuelRun] at hrun
        injection hrun with hrun
        rw [← hrun]
        exact hpit
    | cons i is ih =>
        simp only [fuelRun] at hrun
        rw [exceptBind_eq_ok] at hrun
        obtain ⟨r1, hr1, hrun⟩ := hrun
        rw [List.map_cons] at hchain
        obtain ⟨hle, htail⟩ := List.chain'_cons.mp hchain
        obtain ⟨-, -, hlt, hpl, -, -, -, -, -⟩ := fuelTick_ok_fields capi s i r1 hr1
        have hdet : lapBoundaryDetected s.last_lap_stime i.lap_stime = false := by
          have hnl : ¬s.last_lap_stime < i.lap_stime := not_lt.mpr hle
          simp [lapBoundaryDetected, hnl]
        have hp1 : r1.1.pit_lap = true := by
          rw [hpl, hdet]
          simp [hpit]
        exact ih r1.1 (by rw [hlt]; exact htail) hrun hp1

/-- Witness for C10 at the pit-latched state: the tick keeps the flag true
and does not stage, and the empty run keeps it true. -/
theorem C10_pit_lap_sticky_witness :
    pitFuelResult.1.pit_lap = true ∧
    pitFuelResult.2.2.staged = false ∧
    pitFuelState.pit_lap = true :=
  ⟨(C10_pit_lap_sticky trivialCalc).1 pitFuelState zFuelInput pitFuelResult
      fuelTick_pit rfl rfl,
   (C10_pit_lap_sticky trivialCalc).2.1 pitFuelState zFuelInput pitFuelResult
      fuelTick_pit rfl,
   (C10_pit_lap_sticky trivialCalc).2.2 pitFuelState [] pitFuelState
      (List.chain'_singleton _) rfl rfl⟩

/-! ## C7: per-lap fuel usage accumulation -/

/-- C7 counterexample: from the session-reset state (`amount_last = 0`,
`used_curr = 0`), the single reading −1 forms a (trivially) non-decreasing
sequence, yet after the tick `used_curr = 1`: the first comparison is
against the reset baseline 0, not against a previous reading. -/
theorem C7_negative_reading_cex :
    List.Chain' (fun a b : ℚ => a ≤ b) [c7FuelInput.amount_curr] ∧
    zFuelState.used_curr = 0 ∧
    (fuelTick trivialCalc zFuelState c7FuelInput).map (fun r => r.1.used_curr)
      = .ok 1 := by
  refine ⟨List.chain'_singleton _, rfl, ?_⟩
  norm_num [fuelTick, trivialCalc, zFuelState, c7FuelInput, zFuelInput,
    fuelLevelUpdate, lapBoundaryDetected, DELTA_ZERO, round6, pyModfFrac,
    end_lap_consumption, end_stint_fuel, end_stint_laps,
    end_lap_empty_capacity, end_stint_pit_counts, end_lap_pit_counts,
    less_pit_stop_consumption, pyDiv, Bind.bind, Except.bind, Except.map]

/-- C7 (amended): over any sequence of readings that is non-decreasing
INCLUDING the current baseline `amount_last` (in particular any
non-negative non-decreasing sequence from the session-reset baseline 0),
the accumulated `used_curr` is unchanged; a reading below the baseline adds
exactly the positive difference; a reading above it only resets the
baseline and the lap-start amount; and within a tick that detects no lap
boundary these are exactly the tick's effects on
`(amount_last, amount_start, used_curr)`. -/
theorem C7_fuel_usage_amended :
    (∀ (st : ℚ × ℚ × ℚ) (readings : List ℚ),
        List.Chain' (fun a b => a ≤ b) (st.1 :: readings) →
        (fuelLevelRun st readings).2.2 = st.2.2) ∧
    (∀ al ast uc curr : ℚ, curr < al →
        fuelLevelUpdate al ast uc curr = (curr, ast, uc + (al - curr))) ∧
    (∀ al ast uc curr : ℚ, al < curr →
        fuelLevelUpdate al ast uc curr = (curr, curr, uc)) ∧
    (∀ (capi : CalcApi) (s : FuelState) (i : FuelInput) r,
        fuelTick capi s i = .ok r → r.2.2.lapBoundary = false →
        (r.1.amount_last, r.1.amount_start, r.1.used_curr) =
          fuelLevelUpdate s.amount_last s.amount_start s.used_curr i.amount_curr) := by
  refine ⟨?_, ?_, ?_, ?_⟩
  · intro st readings h
    induction readings generalizing st with
    | nil => rfl
    | cons c cs ih =>
        obtain ⟨hle, htail⟩ := List.chain'_cons.mp h
        have h1 : (fuelLevelUpdate st.1 st.2.1 st.2.2 c).1 = c := by
          unfold fuelLevelUpdate
          rcases lt_trichotomy st.1 c with hlt | heq | hgt
          · simp [hlt]
          · simp [heq, lt_irrefl]
          · exact absurd hgt (not_lt.mpr hle)
        have h2 : (fuelLevelUpdate st.1 st.2.1 st.2.2 c).2.2 = st.2.2 := by
          unfold fuelLevelUpdate
          rcases lt_trichotomy st.1 c with hlt | heq | hgt
          · simp [hlt]
          · simp [heq, lt_irrefl]
          · exact absurd hgt (not_lt.mpr hle)
        have hstep : fuelLevelRun st (c :: cs) =
            fuelLevelRun (fuelLevelUpdate st.1 st.2.1 st.2.2 c) cs := rfl
        rw [hstep]
        exact (ih (fuelLevelUpdate st.1 st.2.1 st.2.2 c)
          (by rw [h1]; exact htail)).trans h2
  · intro al ast uc curr hlt
    unfold fuelLevelUpdate
    rw [if_neg (by linarith), if_pos hlt]
  · intro al ast uc curr hlt
    unfold fuelLevelUpdate
    rw [if_pos hlt]
  · intro capi s i r hr hbf
    obtain ⟨hb, -, -, -, hal, hast, huc, -, -⟩ := fuelTick_ok_fields capi s i r hr
    rw [hbf] at hb
    rw [hal, hast, huc, ← hb]
    simp

/-- Witness for C7 (amended): the run over readings `[1, 2]` from baseline
0, the two single-step facts at concrete values, and the zero tick. -/
theorem C7_fuel_usage_amended_witness :
    (fuelLevelRun ((0 : ℚ), (0 : ℚ), (0 : ℚ)) [1, 2]).2.2 = 0 ∧
    fuelLevelUpdate 5 4 1 3 = (3, 4, 1 + (5 - 3)) ∧
    fuelLevelUpdate 3 3 1 5 = (5, 5, 1) ∧
    (zFuelResult.1.amount_last, zFuelResult.1.amount_start,
        zFuelResult.1.used_curr) =
      fuelLevelUpdate zFuelState.amount_last zFuelState.amount_start
        zFuelState.used_curr zFuelInput.amount_curr :=
  ⟨C7_fuel_usage_amended.1 (0, 0, 0) [1, 2]
      (by norm_num [List.chain'_cons, List.chain'_singleton]),
   C7_fuel_usage_amended.2.1 5 4 1 3 (by norm_num),
   C7_fuel_usage_amended.2.2.1 3 3 1 5 (by norm_num),
   C7_fuel_usage_amended.2.2.2 trivialCalc zFuelState zFuelInput zFuelResult
      fuelTick_zero rfl⟩
